import Mathlib

/-!
# Verification of the GeoNature `GeojsonComponent` overlay lifecycle manager

Shallow embedding of
`src/frontend/src/app/GN2CommonModule/map/geojson/geojson.component.ts`.

The component keeps a Leaflet map synchronized with a GeoJSON `@Input`:
on every change of the input it removes the previously rendered layer,
builds a new one through `mapservice.createGeojson`, emits it on the
`geojsonCharged` subject, wraps it in a fresh `L.FeatureGroup` attached to
the map, and (from the second payload on, when `zoomOnLayer` is set) fits
the viewport to the bounds of that group, swallowing any error raised by
the bounds computation.

Modelling conventions:
* A `GeoPayload` is identified by a `Nat` token; distinct tokens play the
  role of distinct object references (the host's change detection fires
  exactly when the reference changes).
* The Layer Factory (`mapservice.createGeojson`) is an external
  collaborator; its output is modelled as a record of the arguments it
  received plus a fresh identity.  Whether it throws on a given payload,
  and whether a payload has a computable bounding extent, are parameters
  of the environment (`Env`).
* JavaScript `undefined` is `Option.none`; a thrown exception is recorded
  in the `err` field of a `StepResult` while the mutations performed up to
  the throw point persist, exactly as in the JS heap.
-/

/-- A rendered layer, as produced by the Layer Factory
(`mapservice.createGeojson(geojson, cluster, onEachFeature)`).  The record
stores the factory's arguments and a fresh identity `lid` (object
identity: two calls of the factory never return the same object). -/
structure RenderedLayer where
  lid : Nat
  payload : Nat
  clusterArg : Option Bool
  featureArg : Nat
deriving DecidableEq, Repr

/-- A layer attached to the Leaflet map: either a rendered GeoJSON layer or
a `L.FeatureGroup` identified by a fresh group id. -/
inductive Layer where
  | rendered (r : RenderedLayer)
  | group (gid : Nat)
deriving DecidableEq, Repr

/-- Environment describing the external collaborators' behaviour:
`factoryFails p` holds when the Layer Factory throws on payload `p`;
`payloadEmpty p` holds when the layer built from `p` has no computable
bounding extent (e.g. an empty feature collection), making
`FeatureGroup.getBounds` produce invalid bounds. -/
structure Env where
  factoryFails : Nat → Bool
  payloadEmpty : Nat → Bool

/-- The mutable world outside the component: the Leaflet map (attached
layers and viewport), the `MapService`'s `layerGroup` field, the heap of
`FeatureGroup` objects with their children, and fresh-id counters for the
two kinds of objects.  `mapAvail` is whether `mapservice.map` is defined
(the Map Surface Handle is available). -/
structure World where
  mapAvail : Bool
  mapLayers : List Layer
  groups : List (Nat × List RenderedLayer)
  viewport : Option (List Nat)
  svcLayerGroup : Option Nat
  nextLayerId : Nat
  nextGroupId : Nat
deriving Repr

/-- The component's own fields.  `mapBound` is whether `this.map` (copied
from `mapservice.map` in `ngOnInit`) is defined.  `asCluste` is the
declared `@Input() asCluste` (default `false`); `asCluster` models the
*undeclared* property `this.asCluster` that `loadGeojson` actually reads —
no code in the class ever assigns it, so on every reachable instance it is
`undefined` (`none`).  `chargedClosed` is the closed flag of the
`geojsonCharged` subject (the component never completes it). -/
structure GeojsonComponent where
  mapBound : Bool
  currentGeojson : Option RenderedLayer
  zoomOnLayer : Bool
  asCluste : Bool
  asCluster : Option Bool
  onEachFeature : Nat
  chargedClosed : Bool
deriving DecidableEq, Repr

/-- Observable events of one lifecycle-hook invocation, in program order:
factory invocations (with the arguments the factory received), emissions
on the notification channel, attach/detach operations on the map,
viewport fits, and the `console.log` in the reframe `catch` block. -/
inductive Event where
  | factoryCall (payload : Nat) (cluster : Option Bool) (callback : Nat)
  | emitted (r : RenderedLayer)
  | removed (r : RenderedLayer)
  | groupAttached (gid : Nat)
  | layerAttached (r : RenderedLayer)
  | viewFitted (b : List Nat)
  | loggedNoLayer
deriving DecidableEq, Repr

/-- Exceptions a hook invocation can propagate: a JavaScript `TypeError`
from dereferencing an `undefined` map handle, or an exception thrown by
the Layer Factory. -/
inductive Err where
  | typeError
  | factoryError
deriving DecidableEq, Repr

/-- Result of running a lifecycle hook: the events in the order they
happened, the world and component after the run, and `err = some e` when
the hook propagated exception `e` (heap mutations performed before the
throw persist, as in JavaScript). -/
structure StepResult where
  events : List Event
  world : World
  comp : GeojsonComponent
  err : Option Err
deriving Repr

namespace World

/-- Leaflet `map.addLayer(group)` on a freshly created, empty
`FeatureGroup`: the group becomes attached to the map. -/
def mapAddGroup (w : World) (gid : Nat) : World :=
  { w with mapLayers := w.mapLayers ++ [Layer.group gid] }

/-- Leaflet `featureGroup.addLayer(layer)`: the layer is recorded among
the group's children and, because the group is attached to the map,
Leaflet also attaches the layer itself to the map. -/
def groupAddLayer (w : World) (gid : Nat) (r : RenderedLayer) : World :=
  { w with
    groups := w.groups.map fun e => if e.1 = gid then (e.1, e.2 ++ [r]) else e
    mapLayers :=
      if Layer.group gid ∈ w.mapLayers then w.mapLayers ++ [Layer.rendered r]
      else w.mapLayers }

/-- Leaflet `map.removeLayer(layer)`: the layer is detached from the map;
any `FeatureGroup` that listed it among its children keeps that stale
reference (Leaflet does not update the group). -/
def mapRemoveLayer (w : World) (r : RenderedLayer) : World :=
  { w with mapLayers := w.mapLayers.filter fun l => l ≠ Layer.rendered r }

/-- Leaflet `FeatureGroup.getBounds()` followed by validity checking in
`fitBounds`: the extent of the group is assembled from the extents of its
children; a child built from a payload without a computable extent
contributes nothing, and when nothing remains the computation fails (the
error the component catches at the reframe step). -/
def groupBounds (env : Env) (w : World) (gid : Nat) : Except Unit (List Nat) :=
  let children := ((w.groups.find? fun e => e.1 = gid).map Prod.snd).getD []
  let ext := children.filterMap fun r =>
    if env.payloadEmpty r.payload then none else some r.payload
  if ext.isEmpty then Except.error () else Except.ok ext

end World

/-- `ngOnInit()`: copies `mapservice.map` into `this.map`. -/
def ngOnInit (w : World) (c : GeojsonComponent) : GeojsonComponent :=
  { c with mapBound := w.mapAvail }

/-- `loadGeojson(geojson)`, transcribed line by line:

```ts
this.currentGeojson = this.mapservice.createGeojson(
  geojson, this.asCluster, this.onEachFeature);
this.geojsonCharged.next(this.currentGeojson);
this.mapservice.layerGroup = new L.FeatureGroup();
this.mapservice.map.addLayer(this.mapservice.layerGroup);
this.mapservice.layerGroup.addLayer(this.currentGeojson);
```

Note the factory is invoked with `this.asCluster` — not the declared input
`this.asCluste`.  If the factory throws, nothing was assigned.  After the
emission a fresh group object is created and stored in the service; if
`mapservice.map` is `undefined`, `map.addLayer` raises a `TypeError` at
that point, with the assignment, the emission and the group creation
already done. -/
def loadGeojson (env : Env) (w : World) (c : GeojsonComponent) (geojson : Nat) :
    StepResult :=
  if env.factoryFails geojson then
    { events := [Event.factoryCall geojson c.asCluster c.onEachFeature]
      world := w, comp := c, err := some Err.factoryError }
  else
    let r : RenderedLayer :=
      ⟨w.nextLayerId, geojson, c.asCluster, c.onEachFeature⟩
    let w1 : World := { w with nextLayerId := w.nextLayerId + 1 }
    let c1 : GeojsonComponent := { c with currentGeojson := some r }
    let evs := Event.factoryCall geojson c.asCluster c.onEachFeature ::
      (if c.chargedClosed then [] else [Event.emitted r])
    let gid := w1.nextGroupId
    let w2 : World := { w1 with
      nextGroupId := w1.nextGroupId + 1
      groups := w1.groups ++ [(gid, [])]
      svcLayerGroup := some gid }
    if w2.mapAvail then
      let w3 := (w2.mapAddGroup gid).groupAddLayer gid r
      { events := evs ++ [Event.groupAttached gid, Event.layerAttached r]
        world := w3, comp := c1, err := none }
    else
      { events := evs, world := w2, comp := c1, err := some Err.typeError }

/-- The `changes.geojson` entry of the Angular `SimpleChanges` object:
`previousValue` is `undefined` (`none`) on the first change. -/
structure SimpleChange where
  previousValue : Option Nat
  currentValue : Option Nat
deriving DecidableEq, Repr

/-- The `SimpleChanges` record passed to `ngOnChanges`; `geojson = none`
models a change event that does not concern the `geojson` input. -/
structure Changes where
  geojson : Option SimpleChange
deriving DecidableEq, Repr

/-- The reframe step of `ngOnChanges`:

```ts
try {
  this.map.fitBounds(this.mapservice.layerGroup.getBounds());
} catch (error) {
  console.log('no layer in featuregroup');
}
```

In JavaScript the callee `this.map.fitBounds` is evaluated before the
argument, so an undefined `this.map` raises a `TypeError` inside the
`try`; every error is caught and logged.  On success the viewport is set
to the computed bounds. -/
def tryFitBounds (env : Env) (w : World) (c : GeojsonComponent) :
    List Event × World :=
  if c.mapBound then
    match w.svcLayerGroup with
    | none => ([Event.loggedNoLayer], w)
    | some gid =>
      match w.groupBounds env gid with
      | Except.error _ => ([Event.loggedNoLayer], w)
      | Except.ok b => ([Event.viewFitted b], { w with viewport := some b })
  else ([Event.loggedNoLayer], w)

/-- `ngOnChanges(changes)`, transcribed line by line:

```ts
if (changes.geojson && changes.geojson.currentValue !== undefined) {
  if (this.currentGeojson !== undefined) {
    this.mapservice.map.removeLayer(this.currentGeojson);
  }
  this.loadGeojson(changes.geojson.currentValue);
  if (changes.geojson.previousValue !== undefined && this.zoomOnLayer) {
    try { this.map.fitBounds(this.mapservice.layerGroup.getBounds()); }
    catch (error) { console.log('no layer in featuregroup'); }
  }
}
```

When `this.currentGeojson` is defined but `mapservice.map` is `undefined`,
the `removeLayer` call raises a `TypeError` before anything happened. -/
def ngOnChanges (env : Env) (w : World) (c : GeojsonComponent)
    (changes : Changes) : StepResult :=
  match changes.geojson with
  | none => { events := [], world := w, comp := c, err := none }
  | some sc =>
    match sc.currentValue with
    | none => { events := [], world := w, comp := c, err := none }
    | some geojson =>
      match c.currentGeojson with
      | some old =>
        if w.mapAvail then
          let w1 := w.mapRemoveLayer old
          let res := loadGeojson env w1 c geojson
          let res1 := { res with events := Event.removed old :: res.events }
          match res1.err with
          | some _ => res1
          | none =>
            if sc.previousValue ≠ none ∧ res1.comp.zoomOnLayer then
              let fb := tryFitBounds env res1.world res1.comp
              { res1 with events := res1.events ++ fb.1, world := fb.2 }
            else res1
        else { events := [], world := w, comp := c, err := some Err.typeError }
      | none =>
        let res := loadGeojson env w c geojson
        match res.err with
        | some _ => res
        | none =>
          if sc.previousValue ≠ none ∧ res.comp.zoomOnLayer then
            let fb := tryFitBounds env res.world res.comp
            { res with events := res.events ++ fb.1, world := fb.2 }
          else res

/-- The component class is declared `implements OnInit, OnChanges`: it has
no `ngOnDestroy` hook and never calls `complete` or `unsubscribe` on
`geojsonCharged`, so host destruction runs no component-specific teardown
and leaves the subject exactly as it was. -/
def destroyComponent (c : GeojsonComponent) : GeojsonComponent := c

/-- A freshly constructed component with the declared input defaults:
`zoomOnLayer = true`, `asCluste = false`; `this.map` and
`this.currentGeojson` are undefined, the undeclared `this.asCluster` reads
`undefined`, and the subject is open. -/
def initComp (zoom asC : Bool) (cb : Nat) : GeojsonComponent :=
  { mapBound := false, currentGeojson := none, zoomOnLayer := zoom
    asCluste := asC, asCluster := none, onEachFeature := cb
    chargedClosed := false }

/-- The world right after the surrounding map has been created: the handle
is available, nothing is attached, no group exists yet. -/
def initWorld : World :=
  { mapAvail := true, mapLayers := [], groups := [], viewport := none
    svcLayerGroup := none, nextLayerId := 0, nextGroupId := 0 }

/-- The change record the host's change detection delivers for a payload
update: `previousValue` is the previous payload reference (none on the
very first update), `currentValue` the new one. -/
def mkChange (prev : Option Nat) (p : Nat) : Changes :=
  { geojson := some { previousValue := prev, currentValue := some p } }

/-- Drive a sequence of payload updates through `ngOnChanges`, threading
the previous payload into each change record as the host does; stops at
the first propagated exception. -/
def runUpdates (env : Env) (w : World) (c : GeojsonComponent)
    (prev : Option Nat) : List Nat → StepResult
  | [] => { events := [], world := w, comp := c, err := none }
  | p :: ps =>
    let r := ngOnChanges env w c (mkChange prev p)
    match r.err with
    | some _ => r
    | none =>
      let rest := runUpdates env r.world r.comp (some p) ps
      { rest with events := r.events ++ rest.events }

/-- An environment in which the Layer Factory never throws and every
payload has a computable extent. -/
def benignEnv : Env := { factoryFails := fun _ => false, payloadEmpty := fun _ => false }

/-- Number of `LayerGroup`s attached to the map. -/
def countGroups (w : World) : Nat :=
  (w.mapLayers.filter fun l => match l with | Layer.group _ => true | _ => false).length

/-- Number of rendered layers attached to the map. -/
def countRendered (w : World) : Nat :=
  (w.mapLayers.filter fun l => match l with | Layer.rendered _ => true | _ => false).length

/-- Is this event an emission on the notification channel? -/
def Event.isEmit : Event → Bool
  | Event.emitted _ => true
  | _ => false

/-- Full case analysis of the reframe step: either some error was caught
and only the diagnostic log happened, or the viewport was fit to the
bounds of the service's current group. -/
theorem tryFitBounds_cases (env : Env) (w : World) (c : GeojsonComponent) :
    tryFitBounds env w c = ([Event.loggedNoLayer], w) ∨
      ∃ b, tryFitBounds env w c =
        ([Event.viewFitted b], { w with viewport := some b }) := by
  unfold tryFitBounds
  cases hc : c.mapBound with
  | false => simp
  | true =>
    simp only [if_true]
    cases hg : w.svcLayerGroup with
    | none => simp
    | some gid =>
      cases hb : w.groupBounds env gid with
      | error e => simp [hb]
      | ok b => simp [hb]

/-- The reframe step emits nothing on the notification channel. -/
theorem tryFitBounds_filter_isEmit (env : Env) (w : World) (c : GeojsonComponent) :
    (tryFitBounds env w c).1.filter Event.isEmit = [] := by
  rcases tryFitBounds_cases env w c with h | ⟨b, h⟩ <;>
    simp [h, Event.isEmit]

/-- The reframe step never touches the map's attached layers. -/
theorem tryFitBounds_mapLayers (env : Env) (w : World) (c : GeojsonComponent) :
    (tryFitBounds env w c).2.mapLayers = w.mapLayers := by
  rcases tryFitBounds_cases env w c with h | ⟨b, h⟩ <;> simp [h]

/-- C2: claimed — refresh builds the new layer by calling the Layer
Factory with the payload, the current value of the declared clustering
input `asCluste`, and the feature callback, so that setting the input to
`true` makes the factory receive `true`.  The code violates this: line 45
passes `this.asCluster`, an undeclared property that no code ever assigns
and that therefore reads `undefined`; with the declared input set to
`true` the factory still receives `undefined` (`none`), so the documented
clustering input has no effect.  This theorem evaluates the refresh at the
failing input `asCluste = true`, payload `3`, callback `9`: the full event
trace shows the factory was called with cluster argument `none`. -/
theorem c2_factory_receives_undefined_cluster :
    (ngOnChanges benignEnv initWorld
        (ngOnInit initWorld (initComp true true 9)) (mkChange none 3)).events =
      [Event.factoryCall 3 none 9,
       Event.emitted ⟨0, 3, none, 9⟩,
       Event.groupAttached 0,
       Event.layerAttached ⟨0, 3, none, 9⟩] ∧
    (ngOnInit initWorld (initComp true true 9)).asCluste = true := by
  exact ⟨rfl, rfl⟩

/-- C5, counterexample: the claim says destruction closes the
notification channel.  The component class implements only `OnInit` and
`OnChanges`; destruction therefore runs no teardown, and on a freshly
constructed component the subject's closed flag is still `false` after
destruction. -/
theorem c5_destroy_leaves_channel_open :
    destroyComponent (initComp true false 9) = initComp true false 9 ∧
      (destroyComponent (initComp true false 9)).chargedClosed = false :=
  ⟨rfl, rfl⟩

/-- C5, amended: destroying the manager does not close the Change
Notification Channel at all — the component declares no `ngOnDestroy` hook
and never completes or unsubscribes `geojsonCharged`, so destruction is a
no-op on the component and the subject's closed flag is unchanged (the
channel is never closed through any path in this component). -/
theorem c5_amended_destroy_noop (c : GeojsonComponent) :
    destroyComponent c = c ∧
      (destroyComponent c).chargedClosed = c.chargedClosed :=
  ⟨rfl, rfl⟩

/-- C9: a change event that does not concern the `geojson` input, or whose
new payload value is `undefined`, makes `ngOnChanges` a complete no-op: no
events (no factory call, no emission, no map mutation), unchanged world,
unchanged component, no exception. -/
theorem c9_undefined_payload_skips_refresh (env : Env) (w : World)
    (c : GeojsonComponent) (changes : Changes)
    (h : changes.geojson = none ∨
      ∃ sc, changes.geojson = some sc ∧ sc.currentValue = none) :
    ngOnChanges env w c changes =
      { events := [], world := w, comp := c, err := none } := by
  rcases h with h | ⟨sc, h, hcv⟩
  · simp [ngOnChanges, h]
  · simp [ngOnChanges, h, hcv]

/-- Witness for C9 at a concrete input: a change record without a
`geojson` entry is skipped. -/
theorem c9_undefined_payload_skips_refresh_witness :
    ngOnChanges benignEnv initWorld (initComp true false 9)
        { geojson := none } =
      { events := [], world := initWorld, comp := initComp true false 9
        err := none } :=
  c9_undefined_payload_skips_refresh benignEnv initWorld (initComp true false 9)
    { geojson := none } (Or.inl rfl)

/-- C10: when the Layer Factory throws on the payload and a previous
rendered layer existed, the exception propagates (`factoryError`), and at
that point the old layer has already been detached from the map while no
emission has happened; the map is left with no current overlay (the old
layer is gone, no new one was attached) and the component still references
the now-detached old layer.  A failed refresh is thus not atomic. -/
theorem c10_factory_failure_not_atomic (env : Env) (w : World)
    (c : GeojsonComponent) (sc : SimpleChange) (p : Nat) (old : RenderedLayer)
    (hcv : sc.currentValue = some p)
    (hold : c.currentGeojson = some old)
    (hav : w.mapAvail = true)
    (hff : env.factoryFails p = true) :
    (ngOnChanges env w c { geojson := some sc }).err = some Err.factoryError ∧
    (ngOnChanges env w c { geojson := some sc }).events =
      [Event.removed old, Event.factoryCall p c.asCluster c.onEachFeature] ∧
    (ngOnChanges env w c { geojson := some sc }).events.filter Event.isEmit
      = [] ∧
    (ngOnChanges env w c { geojson := some sc }).world.mapLayers =
      w.mapLayers.filter (fun l => l ≠ Layer.rendered old) ∧
    Layer.rendered old ∉
      (ngOnChanges env w c { geojson := some sc }).world.mapLayers ∧
    (ngOnChanges env w c { geojson := some sc }).comp.currentGeojson =
      some old := by
  simp [ngOnChanges, hcv, hold, hav, loadGeojson, hff, World.mapRemoveLayer,
    Event.isEmit, List.mem_filter]

/-- Witness for C10 at a concrete input: factory failing on payload 5,
previous layer attached to the map. -/
theorem c10_factory_failure_not_atomic_witness :
    (ngOnChanges
        { factoryFails := fun _ => true, payloadEmpty := fun _ => false }
        { initWorld with mapLayers := [Layer.rendered ⟨0, 1, none, 9⟩] }
        { initComp true false 9 with currentGeojson := some ⟨0, 1, none, 9⟩ }
        { geojson := some { previousValue := some 1, currentValue := some 5 } }
      ).err = some Err.factoryError :=
  (c10_factory_failure_not_atomic
    { factoryFails := fun _ => true, payloadEmpty := fun _ => false }
    { initWorld with mapLayers := [Layer.rendered ⟨0, 1, none, 9⟩] }
    { initComp true false 9 with currentGeojson := some ⟨0, 1, none, 9⟩ }
    { previousValue := some 1, currentValue := some 5 } 5 ⟨0, 1, none, 9⟩
    rfl rfl rfl rfl).1

/-- C3, counterexample: the claim says a refresh invoked while the Map
Surface Handle is unavailable does not throw, performs no emission and
leaves the manager's state unchanged.  The code has no availability guard:
at the concrete input below (map handle undefined, first payload `7`) the
refresh propagates a `TypeError`, an emission has already happened, and
the manager's current-layer reference has already been updated. -/
theorem c3_refresh_without_map_throws :
    (ngOnChanges benignEnv { initWorld with mapAvail := false }
        (initComp true false 9) (mkChange none 7)).err = some Err.typeError ∧
    Event.emitted ⟨0, 7, none, 9⟩ ∈
      (ngOnChanges benignEnv { initWorld with mapAvail := false }
        (initComp true false 9) (mkChange none 7)).events ∧
    (ngOnChanges benignEnv { initWorld with mapAvail := false }
        (initComp true false 9) (mkChange none 7)).comp.currentGeojson =
      some ⟨0, 7, none, 9⟩ := by
  refine ⟨rfl, ?_, rfl⟩
  simp [ngOnChanges, mkChange, loadGeojson, benignEnv, initComp, initWorld]

/-- C3, amended: invoking refresh while the Map Surface Handle is
unavailable propagates a `TypeError` instead of being skipped.  When a
previous layer existed the `removeLayer` dereference throws first, so no
event happens and world and component are untouched; when none existed
(and the factory does not itself throw) the factory call and exactly one
emission happen, and the current-layer reference is updated, before the
`map.addLayer` dereference throws.  In both cases the map's attached
layers and the viewport are unchanged. -/
theorem c3_amended_refresh_without_map (env : Env) (w : World)
    (c : GeojsonComponent) (sc : SimpleChange) (p : Nat)
    (hcv : sc.currentValue = some p)
    (hav : w.mapAvail = false)
    (hff : c.currentGeojson = none → env.factoryFails p = false)
    (hcl : c.chargedClosed = false) :
    (ngOnChanges env w c { geojson := some sc }).err = some Err.typeError ∧
    (ngOnChanges env w c { geojson := some sc }).world.mapLayers =
      w.mapLayers ∧
    (ngOnChanges env w c { geojson := some sc }).world.viewport =
      w.viewport ∧
    (∀ old, c.currentGeojson = some old →
      (ngOnChanges env w c { geojson := some sc }).events = [] ∧
      (ngOnChanges env w c { geojson := some sc }).world = w ∧
      (ngOnChanges env w c { geojson := some sc }).comp = c) ∧
    (c.currentGeojson = none →
      (ngOnChanges env w c { geojson := some sc }).events =
        [Event.factoryCall p c.asCluster c.onEachFeature,
         Event.emitted ⟨w.nextLayerId, p, c.asCluster, c.onEachFeature⟩] ∧
      (ngOnChanges env w c { geojson := some sc }).comp.currentGeojson =
        some ⟨w.nextLayerId, p, c.asCluster, c.onEachFeature⟩) := by
  cases hold : c.currentGeojson with
  | some old => simp [ngOnChanges, hcv, hold, hav]
  | none => simp [ngOnChanges, hcv, hold, hav, loadGeojson, hff hold, hcl]

/-- Witness for C3's amended theorem at a concrete input: unavailable
handle, no previous layer, payload `7`. -/
theorem c3_amended_refresh_without_map_witness :
    (ngOnChanges benignEnv { initWorld with mapAvail := false }
        (initComp true false 9)
        { geojson := some { previousValue := none, currentValue := some 7 } }
      ).err = some Err.typeError :=
  (c3_amended_refresh_without_map benignEnv
    { initWorld with mapAvail := false } (initComp true false 9)
    { previousValue := none, currentValue := some 7 } 7
    rfl rfl (fun _ => rfl) rfl).1

/-- The layer the factory returns during a refresh of component `c` in
world `w` with payload `p`: it records the arguments `loadGeojson` passes
(`this.asCluster`, `this.onEachFeature`) and takes the next fresh
identity. -/
def refreshedLayer (w : World) (c : GeojsonComponent) (p : Nat) : RenderedLayer :=
  ⟨w.nextLayerId, p, c.asCluster, c.onEachFeature⟩

/-- The world after the map-mutating tail of a successful `loadGeojson`
run on world `w` installing layer `r`: counters bumped, a fresh group
holding `r` registered and attached, the group and the layer on the map. -/
def loadWorld (w : World) (r : RenderedLayer) : World :=
  (({ w with
      nextLayerId := w.nextLayerId + 1
      nextGroupId := w.nextGroupId + 1
      groups := w.groups ++ [(w.nextGroupId, [])]
      svcLayerGroup := some w.nextGroupId }).mapAddGroup
    w.nextGroupId).groupAddLayer w.nextGroupId r

/-- On an available map with a non-throwing factory, `loadGeojson`
completes: factory call, emission (subject open), fresh group attach,
layer attach, with the world transformed by `loadWorld`. -/
theorem loadGeojson_ok (env : Env) (w : World) (c : GeojsonComponent)
    (p : Nat) (hff : env.factoryFails p = false) (hav : w.mapAvail = true) :
    loadGeojson env w c p =
      { events := Event.factoryCall p c.asCluster c.onEachFeature ::
          ((if c.chargedClosed then [] else
            [Event.emitted (refreshedLayer w c p)]) ++
           [Event.groupAttached w.nextGroupId,
            Event.layerAttached (refreshedLayer w c p)])
        world := loadWorld w (refreshedLayer w c p)
        comp := { c with currentGeojson := some (refreshedLayer w c p) }
        err := none } := by
  simp only [loadGeojson, hff, Bool.false_eq_true, if_false, hav, if_true,
    loadWorld, refreshedLayer]
  rfl

/-- `mapRemoveLayer` touches only the attached-layer list. -/
theorem mapRemoveLayer_fields (w : World) (r : RenderedLayer) :
    (w.mapRemoveLayer r).mapAvail = w.mapAvail ∧
    (w.mapRemoveLayer r).groups = w.groups ∧
    (w.mapRemoveLayer r).viewport = w.viewport ∧
    (w.mapRemoveLayer r).svcLayerGroup = w.svcLayerGroup ∧
    (w.mapRemoveLayer r).nextLayerId = w.nextLayerId ∧
    (w.mapRemoveLayer r).nextGroupId = w.nextGroupId :=
  ⟨rfl, rfl, rfl, rfl, rfl, rfl⟩

/-- The attached layers after `loadWorld`: the fresh group and then the
new layer are appended (the layer is propagated to the map because its
group has just been attached). -/
theorem loadWorld_mapLayers (w : World) (r : RenderedLayer) :
    (loadWorld w r).mapLayers =
      w.mapLayers ++ [Layer.group w.nextGroupId, Layer.rendered r] := by
  simp [loadWorld, World.mapAddGroup, World.groupAddLayer]

/-- `loadWorld` leaves the viewport untouched. -/
theorem loadWorld_viewport (w : World) (r : RenderedLayer) :
    (loadWorld w r).viewport = w.viewport := rfl

/-- `loadWorld` stores the fresh group in the service. -/
theorem loadWorld_svcLayerGroup (w : World) (r : RenderedLayer) :
    (loadWorld w r).svcLayerGroup = some w.nextGroupId := rfl

/-- When no existing group already uses the fresh id, the group heap after
`loadWorld` is the old heap plus the fresh group holding exactly the new
layer. -/
theorem loadWorld_groups (w : World) (r : RenderedLayer)
    (hfr : ∀ e ∈ w.groups, e.1 ≠ w.nextGroupId) :
    (loadWorld w r).groups = w.groups ++ [(w.nextGroupId, [r])] := by
  simp only [loadWorld, World.groupAddLayer, World.mapAddGroup, List.map_append]
  have hmap : ∀ (l : List (Nat × List RenderedLayer)),
      (∀ e ∈ l, e.1 ≠ w.nextGroupId) →
      l.map (fun e => if e.1 = w.nextGroupId then (e.1, e.2 ++ [r]) else e)
        = l := by
    intro l
    induction l with
    | nil => intro _; rfl
    | cons a t ih =>
      intro h
      simp only [List.map_cons, if_neg (h a (List.mem_cons_self a t))]
      rw [ih fun e he => h e (List.mem_cons_of_mem a he)]
  rw [hmap w.groups hfr]
  simp

/-- Bounds of the freshly installed group: its only child is the new
layer, so the computation yields the layer's extent, or fails when the
payload has none. -/
theorem loadWorld_groupBounds (env : Env) (w : World) (r : RenderedLayer)
    (hfr : ∀ e ∈ w.groups, e.1 ≠ w.nextGroupId) :
    (loadWorld w r).groupBounds env w.nextGroupId =
      if env.payloadEmpty r.payload then Except.error ()
      else Except.ok [r.payload] := by
  unfold World.groupBounds
  rw [loadWorld_groups w r hfr]
  rw [List.find?_append]
  have h1 : (w.groups.find? fun e => e.1 = w.nextGroupId) = none := by
    rw [List.find?_eq_none]
    intro e he
    simp [hfr e he]
  rw [h1]
  simp only [Option.none_or, List.find?_singleton]
  cases he : env.payloadEmpty r.payload <;> simp [he]

/-- Master characterization of a successful refresh (`ngOnChanges` with a
defined payload, available map handle, non-throwing factory): the trace is
an optional removal of the old layer, the factory call, the emission, the
attach of the fresh group and of the new layer, followed by the reframe
step's events exactly when the zoom condition (`previousValue` defined and
`zoomOnLayer`) holds; no exception propagates and the current-layer
reference becomes the freshly built layer. -/
theorem refresh_success (env : Env) (w : World) (c : GeojsonComponent)
    (pv : Option Nat) (p : Nat)
    (hav : w.mapAvail = true) (hff : env.factoryFails p = false) :
    ∃ pre w1 tail w2,
      ((c.currentGeojson = none ∧ pre = [] ∧ w1 = w) ∨
       (∃ old, c.currentGeojson = some old ∧ pre = [Event.removed old] ∧
         w1 = w.mapRemoveLayer old)) ∧
      (if pv ≠ none ∧ c.zoomOnLayer = true
       then (tail, w2) = tryFitBounds env (loadWorld w1 (refreshedLayer w1 c p))
         { c with currentGeojson := some (refreshedLayer w1 c p) }
       else tail = [] ∧ w2 = loadWorld w1 (refreshedLayer w1 c p)) ∧
      ngOnChanges env w c { geojson := some ⟨pv, some p⟩ } =
        { events := pre ++ Event.factoryCall p c.asCluster c.onEachFeature ::
            ((if c.chargedClosed then [] else
              [Event.emitted (refreshedLayer w1 c p)]) ++
             [Event.groupAttached w1.nextGroupId,
              Event.layerAttached (refreshedLayer w1 c p)]) ++ tail
          world := w2
          comp := { c with currentGeojson := some (refreshedLayer w1 c p) }
          err := none } := by
  cases hold : c.currentGeojson with
  | none =>
    have hld := loadGeojson_ok env w c p hff hav
    by_cases hz : pv ≠ none ∧ c.zoomOnLayer = true
    · rcases hfb : tryFitBounds env (loadWorld w (refreshedLayer w c p))
        { c with currentGeojson := some (refreshedLayer w c p) } with ⟨tl, w2⟩
      refine ⟨[], w, tl, w2, Or.inl ⟨rfl, rfl, rfl⟩, ?_, ?_⟩
      · rw [if_pos hz, hfb]
      · simp only [ngOnChanges, hold, hld]
        split
        next h => simp [hfb]
        next h => exact absurd hz h
    · refine ⟨[], w, [], loadWorld w (refreshedLayer w c p),
        Or.inl ⟨rfl, rfl, rfl⟩, ?_, ?_⟩
      · rw [if_neg hz]
        exact ⟨rfl, rfl⟩
      · simp only [ngOnChanges, hold, hld]
        split
        next h => exact absurd h hz
        next h => simp
  | some old =>
    have hav1 : (w.mapRemoveLayer old).mapAvail = true := hav
    have hld := loadGeojson_ok env (w.mapRemoveLayer old) c p hff hav1
    by_cases hz : pv ≠ none ∧ c.zoomOnLayer = true
    · rcases hfb : tryFitBounds env
        (loadWorld (w.mapRemoveLayer old)
          (refreshedLayer (w.mapRemoveLayer old) c p))
        { c with
          currentGeojson := some (refreshedLayer (w.mapRemoveLayer old) c p) }
        with ⟨tl, w2⟩
      refine ⟨[Event.removed old], w.mapRemoveLayer old, tl, w2,
        Or.inr ⟨old, rfl, rfl, rfl⟩, ?_, ?_⟩
      · rw [if_pos hz, hfb]
      · simp only [ngOnChanges, hold, hav, if_true, hld]
        split
        next h => simp [hfb]
        next h => exact absurd hz h
    · refine ⟨[Event.removed old], w.mapRemoveLayer old, [],
        loadWorld (w.mapRemoveLayer old)
          (refreshedLayer (w.mapRemoveLayer old) c p),
        Or.inr ⟨old, rfl, rfl, rfl⟩, ?_, ?_⟩
      · rw [if_neg hz]
        exact ⟨rfl, rfl⟩
      · simp only [ngOnChanges, hold, hav, if_true, hld]
        split
        next h => exact absurd h hz
        next h => simp

/-- C7: every successful refresh emits exactly once on the notification
channel, and the emitted value is exactly the layer the factory built from
that payload — the same object that becomes the manager's current layer
(and the factory was indeed called on that payload). -/
theorem c7_notification_fidelity (env : Env) (w : World)
    (c : GeojsonComponent) (sc : SimpleChange) (p : Nat)
    (hcv : sc.currentValue = some p)
    (hav : w.mapAvail = true)
    (hff : env.factoryFails p = false)
    (hcl : c.chargedClosed = false) :
    (ngOnChanges env w c { geojson := some sc }).err = none ∧
    (ngOnChanges env w c { geojson := some sc }).comp.currentGeojson =
      some (refreshedLayer w c p) ∧
    (ngOnChanges env w c { geojson := some sc }).events.filter Event.isEmit =
      [Event.emitted (refreshedLayer w c p)] ∧
    Event.factoryCall p c.asCluster c.onEachFeature ∈
      (ngOnChanges env w c { geojson := some sc }).events := by
  obtain ⟨pv, cv⟩ := sc
  simp only [SimpleChange.mk.injEq] at hcv ⊢
  cases hcv
  obtain ⟨pre, w1, tail, w2, hbr, hz, heq⟩ :=
    refresh_success env w c pv p hav hff
  have hrl : refreshedLayer w1 c p = refreshedLayer w c p := by
    rcases hbr with ⟨_, _, rfl⟩ | ⟨old, _, _, rfl⟩ <;>
      simp [refreshedLayer, World.mapRemoveLayer]
  have htail : tail.filter Event.isEmit = [] := by
    by_cases h : pv ≠ none ∧ c.zoomOnLayer = true
    · rw [if_pos h] at hz
      have hemp := tryFitBounds_filter_isEmit env
        (loadWorld w1 (refreshedLayer w1 c p))
        { c with currentGeojson := some (refreshedLayer w1 c p) }
      rw [← hz] at hemp
      exact hemp
    · rw [if_neg h] at hz
      rw [hz.1]
      rfl
  have hpre : pre.filter Event.isEmit = [] := by
    rcases hbr with ⟨_, rfl, _⟩ | ⟨old, _, rfl, _⟩
    · rfl
    · simp [Event.isEmit]
  rw [heq, hrl] at *
  refine ⟨rfl, rfl, ?_, ?_⟩
  · simp only [List.filter_append, hpre, htail, List.filter_cons, hcl,
      Bool.false_eq_true, if_false, List.filter]
    simp [Event.isEmit]
  · simp

/-- Witness for C7 at a concrete input: first payload `4` on a freshly
initialized component over an available map. -/
theorem c7_notification_fidelity_witness :
    (ngOnChanges benignEnv initWorld
        (ngOnInit initWorld (initComp true false 9))
        { geojson := some { previousValue := none, currentValue := some 4 } }
      ).err = none :=
  (c7_notification_fidelity benignEnv initWorld
    (ngOnInit initWorld (initComp true false 9))
    { previousValue := none, currentValue := some 4 } 4 rfl rfl rfl rfl).1

/-- When `this.map` is bound, the service holds group `gid`, and the
bounds computation succeeds, the reframe step fits the viewport. -/
theorem tryFitBounds_ok (env : Env) (w : World) (c : GeojsonComponent)
    (gid : Nat) (b : List Nat) (hmb : c.mapBound = true)
    (hsv : w.svcLayerGroup = some gid)
    (hb : w.groupBounds env gid = Except.ok b) :
    tryFitBounds env w c = ([Event.viewFitted b], { w with viewport := some b }) := by
  unfold tryFitBounds
  rw [hmb]
  simp [hsv, hb]

/-- When `this.map` is bound but the bounds computation fails, the error
is caught: only the diagnostic log happens and the world is unchanged. -/
theorem tryFitBounds_caught (env : Env) (w : World) (c : GeojsonComponent)
    (gid : Nat) (hmb : c.mapBound = true)
    (hsv : w.svcLayerGroup = some gid)
    (hb : w.groupBounds env gid = Except.error ()) :
    tryFitBounds env w c = ([Event.loggedNoLayer], w) := by
  unfold tryFitBounds
  rw [hmb]
  simp [hsv, hb]

/-- C6: with `zoomOnLayer` enabled, the refresh that processes the very
first payload (the change record's `previousValue` is undefined) leaves
the viewport untouched; every subsequent refresh (defined
`previousValue`) fits the viewport to the extent of the just-installed
group's contents, i.e. to the extent of the layer built from the new
payload (assumed to have a computable extent). -/
theorem c6_reframe_after_first (env : Env) (w : World)
    (c : GeojsonComponent) (sc : SimpleChange) (p : Nat)
    (hcv : sc.currentValue = some p)
    (hav : w.mapAvail = true)
    (hff : env.factoryFails p = false)
    (hz : c.zoomOnLayer = true)
    (hmb : c.mapBound = true)
    (hne : env.payloadEmpty p = false)
    (hgf : ∀ e ∈ w.groups, e.1 ≠ w.nextGroupId) :
    (sc.previousValue = none →
      (ngOnChanges env w c { geojson := some sc }).world.viewport =
        w.viewport) ∧
    (sc.previousValue ≠ none →
      (ngOnChanges env w c { geojson := some sc }).world.viewport =
        some [p] ∧
      Event.viewFitted [p] ∈
        (ngOnChanges env w c { geojson := some sc }).events) := by
  obtain ⟨pv, cv⟩ := sc
  simp only at hcv ⊢
  cases hcv
  obtain ⟨pre, w1, tail, w2, hbr, hzs, heq⟩ :=
    refresh_success env w c pv p hav hff
  have hw1g : w1.groups = w.groups ∧ w1.nextGroupId = w.nextGroupId ∧
      w1.viewport = w.viewport := by
    rcases hbr with ⟨_, _, rfl⟩ | ⟨old, _, _, rfl⟩ <;>
      simp [World.mapRemoveLayer]
  constructor
  · intro hpv
    subst hpv
    rw [if_neg (by simp)] at hzs
    rw [heq, hzs.2, loadWorld_viewport, hw1g.2.2]
  · intro hpv
    rw [if_pos ⟨hpv, hz⟩] at hzs
    have hb : (loadWorld w1 (refreshedLayer w1 c p)).groupBounds env
        w1.nextGroupId = Except.ok [p] := by
      rw [loadWorld_groupBounds env w1 (refreshedLayer w1 c p)
        (by rw [hw1g.1, hw1g.2.1]; exact hgf)]
      simp [refreshedLayer, hne]
    have hfit := tryFitBounds_ok env (loadWorld w1 (refreshedLayer w1 c p))
      { c with currentGeojson := some (refreshedLayer w1 c p) }
      w1.nextGroupId [p] hmb (loadWorld_svcLayerGroup w1 _) hb
    rw [hfit] at hzs
    obtain ⟨htl, hw2⟩ := Prod.mk.injEq .. ▸ hzs
    rw [heq]
    refine ⟨?_, ?_⟩
    · rw [hw2]
    · rw [htl]
      simp

/-- Witness for C6 at a concrete input: the state reached after a first
payload `1`, refreshed with a second payload `2` — the viewport is fit to
the new layer's extent. -/
theorem c6_reframe_after_first_witness :
    (ngOnChanges benignEnv
        { mapAvail := true
          mapLayers := [Layer.group 0, Layer.rendered ⟨0, 1, none, 9⟩]
          groups := [(0, [⟨0, 1, none, 9⟩])]
          viewport := none
          svcLayerGroup := some 0
          nextLayerId := 1
          nextGroupId := 1 }
        { mapBound := true
          currentGeojson := some ⟨0, 1, none, 9⟩
          zoomOnLayer := true
          asCluste := false
          asCluster := none
          onEachFeature := 9
          chargedClosed := false }
        { geojson := some { previousValue := some 1, currentValue := some 2 } }
      ).world.viewport = some [2] :=
  ((c6_reframe_after_first benignEnv
    { mapAvail := true
      mapLayers := [Layer.group 0, Layer.rendered ⟨0, 1, none, 9⟩]
      groups := [(0, [⟨0, 1, none, 9⟩])]
      viewport := none
      svcLayerGroup := some 0
      nextLayerId := 1
      nextGroupId := 1 }
    { mapBound := true
      currentGeojson := some ⟨0, 1, none, 9⟩
      zoomOnLayer := true
      asCluste := false
      asCluster := none
      onEachFeature := 9
      chargedClosed := false }
    { previousValue := some 1, currentValue := some 2 } 2
    rfl rfl rfl rfl rfl rfl (by decide)).2 (by decide)).1

/-- C8: when the reframe step is reached but the just-installed group has
no computable extent (payload with zero renderable features), the failure
is caught: the refresh completes without exception, a diagnostic log entry
is produced, the viewport is left unchanged, and the freshly installed
overlay (group and layer) is on the map with the current-layer reference
set to the new layer. -/
theorem c8_empty_extent_suppressed (env : Env) (w : World)
    (c : GeojsonComponent) (sc : SimpleChange) (p : Nat)
    (hcv : sc.currentValue = some p)
    (hav : w.mapAvail = true)
    (hff : env.factoryFails p = false)
    (hz : c.zoomOnLayer = true)
    (hmb : c.mapBound = true)
    (hpv : sc.previousValue ≠ none)
    (hne : env.payloadEmpty p = true)
    (hgf : ∀ e ∈ w.groups, e.1 ≠ w.nextGroupId) :
    (ngOnChanges env w c { geojson := some sc }).err = none ∧
    (ngOnChanges env w c { geojson := some sc }).world.viewport =
      w.viewport ∧
    Event.loggedNoLayer ∈ (ngOnChanges env w c { geojson := some sc }).events ∧
    (ngOnChanges env w c { geojson := some sc }).comp.currentGeojson =
      some (refreshedLayer w c p) ∧
    Layer.rendered (refreshedLayer w c p) ∈
      (ngOnChanges env w c { geojson := some sc }).world.mapLayers ∧
    Layer.group w.nextGroupId ∈
      (ngOnChanges env w c { geojson := some sc }).world.mapLayers := by
  obtain ⟨pv, cv⟩ := sc
  simp only at hcv hpv ⊢
  cases hcv
  obtain ⟨pre, w1, tail, w2, hbr, hzs, heq⟩ :=
    refresh_success env w c pv p hav hff
  have hw1g : w1.groups = w.groups ∧ w1.nextGroupId = w.nextGroupId ∧
      w1.viewport = w.viewport ∧
      refreshedLayer w1 c p = refreshedLayer w c p := by
    rcases hbr with ⟨_, _, rfl⟩ | ⟨old, _, _, rfl⟩ <;>
      simp [World.mapRemoveLayer, refreshedLayer]
  rw [if_pos ⟨hpv, hz⟩] at hzs
  have hb : (loadWorld w1 (refreshedLayer w1 c p)).groupBounds env
      w1.nextGroupId = Except.error () := by
    rw [loadWorld_groupBounds env w1 (refreshedLayer w1 c p)
      (by rw [hw1g.1, hw1g.2.1]; exact hgf)]
    simp [refreshedLayer, hne]
  have hfit := tryFitBounds_caught env (loadWorld w1 (refreshedLayer w1 c p))
    { c with currentGeojson := some (refreshedLayer w1 c p) }
    w1.nextGroupId hmb (loadWorld_svcLayerGroup w1 _) hb
  rw [hfit] at hzs
  obtain ⟨htl, hw2⟩ := Prod.mk.injEq .. ▸ hzs
  rw [heq, htl, hw2, hw1g.2.2.2]
  refine ⟨rfl, ?_, ?_, rfl, ?_, ?_⟩
  · rw [loadWorld_viewport, hw1g.2.2.1]
  · simp
  · rw [← hw1g.2.2.2, loadWorld_mapLayers]
    simp
  · rw [loadWorld_mapLayers, hw1g.2.1]
    simp

/-- Witness for C8 at a concrete input: second payload `2` has no
computable extent; the viewport stays `none` and no exception escapes. -/
theorem c8_empty_extent_suppressed_witness :
    (ngOnChanges
        { factoryFails := fun _ => false, payloadEmpty := fun p => p = 2 }
        { mapAvail := true
          mapLayers := [Layer.group 0, Layer.rendered ⟨0, 1, none, 9⟩]
          groups := [(0, [⟨0, 1, none, 9⟩])]
          viewport := none
          svcLayerGroup := some 0
          nextLayerId := 1
          nextGroupId := 1 }
        { mapBound := true
          currentGeojson := some ⟨0, 1, none, 9⟩
          zoomOnLayer := true
          asCluste := false
          asCluster := none
          onEachFeature := 9
          chargedClosed := false }
        { geojson := some { previousValue := some 1, currentValue := some 2 } }
      ).err = none :=
  (c8_empty_extent_suppressed
    { factoryFails := fun _ => false, payloadEmpty := fun p => p = 2 }
    { mapAvail := true
      mapLayers := [Layer.group 0, Layer.rendered ⟨0, 1, none, 9⟩]
      groups := [(0, [⟨0, 1, none, 9⟩])]
      viewport := none
      svcLayerGroup := some 0
      nextLayerId := 1
      nextGroupId := 1 }
    { mapBound := true
      currentGeojson := some ⟨0, 1, none, 9⟩
      zoomOnLayer := true
      asCluste := false
      asCluster := none
      onEachFeature := 9
      chargedClosed := false }
    { previousValue := some 1, currentValue := some 2 } 2
    rfl rfl rfl rfl rfl (by decide) (by decide) (by decide)).1

/-- Effect of one trace event on the map's attached-layer list: removal
and the two attach operations mutate it, every other event leaves it
alone.  Replaying a prefix of a hook's trace through this function yields
the map as observed at that intermediate point of the hook. -/
def applyEvent (ls : List Layer) : Event → List Layer
  | Event.removed r => ls.filter fun l => l ≠ Layer.rendered r
  | Event.groupAttached gid => ls ++ [Layer.group gid]
  | Event.layerAttached r => ls ++ [Layer.rendered r]
  | _ => ls

/-- The map's attached layers after replaying a list of trace events. -/
def replay (ls : List Layer) : List Event → List Layer
  | [] => ls
  | e :: es => replay (applyEvent ls e) es

/-- Replaying a concatenation replays the two parts in sequence. -/
theorem replay_append (ls : List Layer) (es1 es2 : List Event) :
    replay ls (es1 ++ es2) = replay (replay ls es1) es2 := by
  induction es1 generalizing ls with
  | nil => rfl
  | cons e t ih =>
    simp only [List.cons_append, replay]
    exact ih (applyEvent ls e)

/-- A rendered layer that is not attached stays unattached under a trace
that never attaches it. -/
theorem not_mem_replay (x : RenderedLayer) (ls : List Layer)
    (es : List Event) (hx : Layer.rendered x ∉ ls)
    (hno : ∀ e ∈ es, e ≠ Event.layerAttached x) :
    Layer.rendered x ∉ replay ls es := by
  induction es generalizing ls with
  | nil => exact hx
  | cons e t ih =>
    refine ih (applyEvent ls e) ?_ fun e' he' => hno e' (List.mem_cons_of_mem e he')
    cases e with
    | removed r =>
      intro hmem
      exact hx (List.mem_of_mem_filter hmem)
    | groupAttached gid =>
      intro hmem
      rcases List.mem_append.mp hmem with h | h
      · exact hx h
      · simp at h
    | layerAttached r =>
      intro hmem
      rcases List.mem_append.mp hmem with h | h
      · exact hx h
      · have hxr : x = r := by simpa using h
        exact hno (Event.layerAttached r) (List.mem_cons_self _ _) (by rw [hxr])
    | factoryCall p cl cb => exact hx
    | emitted r => exact hx
    | viewFitted b => exact hx
    | loggedNoLayer => exact hx

/-- C4: remove-before-add ordering.  When a previous rendered layer
existed, the refresh trace begins with its removal, and replaying any
prefix of the trace never shows the old and the new rendered layer
attached simultaneously; when no previous layer existed the refresh
performs no removal at all (add-only).  Moreover the replayed full trace
agrees with the final map state, so the replay is a faithful account of
the map during the refresh.  The freshness hypotheses state that every
layer id already in use is below the allocation counter. -/
theorem c4_remove_before_add (env : Env) (w : World) (c : GeojsonComponent)
    (sc : SimpleChange) (p : Nat)
    (hcv : sc.currentValue = some p)
    (hav : w.mapAvail = true)
    (hff : env.factoryFails p = false)
    (hfr1 : ∀ r', Layer.rendered r' ∈ w.mapLayers → r'.lid < w.nextLayerId)
    (hfr2 : ∀ old, c.currentGeojson = some old → old.lid < w.nextLayerId) :
    (∀ old, c.currentGeojson = some old →
      (ngOnChanges env w c { geojson := some sc }).events.head? =
        some (Event.removed old) ∧
      ∀ n, ¬(Layer.rendered old ∈
          replay w.mapLayers
            ((ngOnChanges env w c { geojson := some sc }).events.take n) ∧
        Layer.rendered (refreshedLayer w c p) ∈
          replay w.mapLayers
            ((ngOnChanges env w c { geojson := some sc }).events.take n))) ∧
    (c.currentGeojson = none →
      ∀ e ∈ (ngOnChanges env w c { geojson := some sc }).events,
        ∀ r', e ≠ Event.removed r') ∧
    replay w.mapLayers (ngOnChanges env w c { geojson := some sc }).events =
      (ngOnChanges env w c { geojson := some sc }).world.mapLayers := by
  obtain ⟨pv, cv⟩ := sc
  simp only at hcv ⊢
  cases hcv
  obtain ⟨pre, w1, tail, w2, hbr, hzs, heq⟩ :=
    refresh_success env w c pv p hav hff
  have hrl : refreshedLayer w1 c p = refreshedLayer w c p ∧
      w1.nextGroupId = w.nextGroupId := by
    rcases hbr with ⟨_, _, rfl⟩ | ⟨old, _, _, rfl⟩ <;>
      simp [refreshedLayer, World.mapRemoveLayer]
  have htail : tail = [] ∨ tail = [Event.loggedNoLayer] ∨
      ∃ b, tail = [Event.viewFitted b] := by
    by_cases h : pv ≠ none ∧ c.zoomOnLayer = true
    · rw [if_pos h] at hzs
      rcases tryFitBounds_cases env (loadWorld w1 (refreshedLayer w1 c p))
          { c with currentGeojson := some (refreshedLayer w1 c p) } with
        hc | ⟨b, hc⟩
      · rw [hc] at hzs
        exact Or.inr (Or.inl (congrArg Prod.fst hzs))
      · rw [hc] at hzs
        exact Or.inr (Or.inr ⟨b, congrArg Prod.fst hzs⟩)
    · rw [if_neg h] at hzs
      exact Or.inl hzs.1
  have hw2m : w2.mapLayers =
      (loadWorld w1 (refreshedLayer w1 c p)).mapLayers := by
    by_cases h : pv ≠ none ∧ c.zoomOnLayer = true
    · rw [if_pos h] at hzs
      exact (congrArg (fun q => q.2.mapLayers) hzs).trans
        (tryFitBounds_mapLayers env _ _)
    · rw [if_neg h] at hzs
      rw [hzs.2]
  have hrt : ∀ ls : List Layer, replay ls tail = ls := by
    intro ls
    rcases htail with rfl | rfl | ⟨b, rfl⟩ <;> rfl
  have hreE : ∀ ls : List Layer,
      replay ls (Event.factoryCall p c.asCluster c.onEachFeature ::
        ((if c.chargedClosed then [] else
          [Event.emitted (refreshedLayer w1 c p)]) ++
         [Event.groupAttached w1.nextGroupId,
          Event.layerAttached (refreshedLayer w1 c p)])) =
      ls ++ [Layer.group w1.nextGroupId,
        Layer.rendered (refreshedLayer w1 c p)] := by
    intro ls
    cases hcc : c.chargedClosed <;> simp [hcc, replay, applyEvent]
  refine ⟨?_, ?_, ?_⟩
  · intro old hco
    rcases hbr with ⟨h0, _, _⟩ | ⟨old', hco', hpre, hw1⟩
    · rw [h0] at hco
      cases hco
    · rw [hco] at hco'
      have hoo : old' = old := by
        injection hco' with h
        exact h.symm
      subst hoo
      subst hpre
      have hlidlt := hfr2 old' hco
      constructor
      · rw [heq]
        rfl
      · intro n
        cases n with
        | zero =>
          rintro ⟨-, hmem⟩
          simp only [List.take_zero, replay] at hmem
          have := hfr1 _ hmem
          simp [refreshedLayer] at this
        | succ m =>
          rintro ⟨hold_mem, -⟩
          rw [heq] at hold_mem
          simp only [List.singleton_append, List.take_succ_cons,
            replay, applyEvent] at hold_mem
          refine not_mem_replay old' _ _ ?_ ?_ hold_mem
          · simp [List.mem_filter]
          · intro e he hela
            subst hela
            have he' := List.take_subset m _ he
            rcases List.mem_append.mp he' with heE | heT
            · cases hcc : c.chargedClosed <;> simp [hcc] at heE <;>
              · have : (refreshedLayer w1 c p).lid = w.nextLayerId := by
                  rw [hrl.1]
                  rfl
                rw [heE] at hlidlt
                rw [this] at hlidlt
                exact absurd hlidlt (lt_irrefl _)
            · rcases htail with rfl | rfl | ⟨b, rfl⟩ <;> simp at heT
  · intro hco e he r' hrm
    subst hrm
    rcases hbr with ⟨h0, hpre, hw1⟩ | ⟨old', hco', _, _⟩
    · subst hpre
      rw [heq] at he
      simp only [List.nil_append] at he
      rcases List.mem_append.mp he with heE | heT
      · cases hcc : c.chargedClosed <;> simp [hcc] at heE
      · rcases htail with rfl | rfl | ⟨b, rfl⟩ <;> simp at heT
    · rw [hco] at hco'
      cases hco'
  · have hev : (ngOnChanges env w c
        { geojson := some { previousValue := pv, currentValue := some p } }
        ).events =
        pre ++ Event.factoryCall p c.asCluster c.onEachFeature ::
          ((if c.chargedClosed then [] else
            [Event.emitted (refreshedLayer w1 c p)]) ++
           [Event.groupAttached w1.nextGroupId,
            Event.layerAttached (refreshedLayer w1 c p)]) ++ tail := by
      rw [heq]
    have hwrld : (ngOnChanges env w c
        { geojson := some { previousValue := pv, currentValue := some p } }
        ).world = w2 := by
      rw [heq]
    rw [hev, hwrld, replay_append, hrt, replay_append, hreE, hw2m,
      loadWorld_mapLayers]
    rcases hbr with ⟨h0, hpre, hw1⟩ | ⟨old', hco', hpre, hw1⟩ <;>
      subst hpre <;> subst hw1 <;> rfl

/-- Witness for C4 at a concrete input: the second refresh (payload `2`
over the state holding the layer built from payload `1`) begins by
removing the old layer. -/
theorem c4_remove_before_add_witness :
    (ngOnChanges benignEnv
        { mapAvail := true
          mapLayers := [Layer.group 0, Layer.rendered ⟨0, 1, none, 9⟩]
          groups := [(0, [⟨0, 1, none, 9⟩])]
          viewport := none
          svcLayerGroup := some 0
          nextLayerId := 1
          nextGroupId := 1 }
        { mapBound := true
          currentGeojson := some ⟨0, 1, none, 9⟩
          zoomOnLayer := true
          asCluste := false
          asCluster := none
          onEachFeature := 9
          chargedClosed := false }
        { geojson := some { previousValue := some 1, currentValue := some 2 } }
      ).events.head? = some (Event.removed ⟨0, 1, none, 9⟩) :=
  ((c4_remove_before_add benignEnv
    { mapAvail := true
      mapLayers := [Layer.group 0, Layer.rendered ⟨0, 1, none, 9⟩]
      groups := [(0, [⟨0, 1, none, 9⟩])]
      viewport := none
      svcLayerGroup := some 0
      nextLayerId := 1
      nextGroupId := 1 }
    { mapBound := true
      currentGeojson := some ⟨0, 1, none, 9⟩
      zoomOnLayer := true
      asCluste := false
      asCluster := none
      onEachFeature := 9
      chargedClosed := false }
    { previousValue := some 1, currentValue := some 2 } 2
    rfl rfl rfl
    (by
      intro r' hmem
      simp only [List.mem_cons, List.not_mem_nil, or_false] at hmem
      rcases hmem with h | h
      · exact Layer.noConfusion h
      · injection h with h2
        rw [h2]
        decide)
    (by
      intro old h
      injection h with h2
      rw [← h2]
      decide)).1 ⟨0, 1, none, 9⟩ rfl).1

/-- The reframe step changes no world field other than the viewport. -/
theorem tryFitBounds_fields (env : Env) (w : World) (c : GeojsonComponent) :
    (tryFitBounds env w c).2.mapAvail = w.mapAvail ∧
    (tryFitBounds env w c).2.mapLayers = w.mapLayers ∧
    (tryFitBounds env w c).2.groups = w.groups ∧
    (tryFitBounds env w c).2.svcLayerGroup = w.svcLayerGroup ∧
    (tryFitBounds env w c).2.nextLayerId = w.nextLayerId ∧
    (tryFitBounds env w c).2.nextGroupId = w.nextGroupId := by
  rcases tryFitBounds_cases env w c with h | ⟨b, h⟩ <;> simp [h]

/-- The final world of a successful refresh agrees with the installed
world `wld` on every field except possibly the viewport, whatever the
zoom condition decided. -/
theorem zoomStep_fields (env : Env) (tail : List Event) (w2 wld : World)
    (c1 : GeojsonComponent) (pv : Option Nat) (z : Bool)
    (hzs : if pv ≠ none ∧ z = true then (tail, w2) = tryFitBounds env wld c1
      else tail = [] ∧ w2 = wld) :
    w2.mapAvail = wld.mapAvail ∧
    w2.mapLayers = wld.mapLayers ∧
    w2.groups = wld.groups ∧
    w2.svcLayerGroup = wld.svcLayerGroup ∧
    w2.nextLayerId = wld.nextLayerId ∧
    w2.nextGroupId = wld.nextGroupId := by
  by_cases h : pv ≠ none ∧ z = true
  · rw [if_pos h] at hzs
    have h2 : w2 = (tryFitBounds env wld c1).2 := congrArg Prod.snd hzs
    rw [h2]
    exact tryFitBounds_fields env wld c1
  · rw [if_neg h] at hzs
    rw [hzs.2]
    exact ⟨rfl, rfl, rfl, rfl, rfl, rfl⟩

/-- Removing the current rendered layer from a map holding the groups of
all past refreshes plus that layer leaves exactly the groups. -/
theorem filter_out_rendered (k : Nat) (r : RenderedLayer) :
    ((List.range k).map Layer.group ++ [Layer.rendered r]).filter
      (fun l => l ≠ Layer.rendered r) = (List.range k).map Layer.group := by
  rw [List.filter_append]
  have h1 : ((List.range k).map Layer.group).filter
      (fun l => l ≠ Layer.rendered r) = (List.range k).map Layer.group := by
    apply List.filter_eq_self.mpr
    intro a ha
    simp only [List.mem_map] at ha
    obtain ⟨i, _, rfl⟩ := ha
    simp
  rw [h1]
  simp

/-- Invariant of the reachable states: after `j + 1` completed refreshes
whose most recent payload is `p`, the map handle is available, `j + 1`
layer ids and group ids have been allocated, the service points at group
`j`, the map carries the groups of all past refreshes (none is ever
detached) plus exactly one rendered layer — the newest, built from `p`
with id `j` — and the group heap ends with group `j` holding exactly that
layer. -/
def RefreshInv (j : Nat) (p : Nat) (w : World) (c : GeojsonComponent) : Prop :=
  w.mapAvail = true ∧
  w.nextLayerId = j + 1 ∧
  w.nextGroupId = j + 1 ∧
  w.svcLayerGroup = some j ∧
  ∃ r : RenderedLayer,
    c.currentGeojson = some r ∧
    r.payload = p ∧
    r.lid = j ∧
    w.mapLayers = (List.range (j + 1)).map Layer.group ++ [Layer.rendered r] ∧
    ∃ gs, w.groups = gs ++ [(j, [r])] ∧ ∀ e ∈ gs, e.1 < j

/-- The very first refresh from the pristine bound state establishes the
invariant at index 0. -/
theorem refresh_first_inv (env : Env) (w : World) (c : GeojsonComponent)
    (pv : Option Nat) (p : Nat)
    (hav : w.mapAvail = true) (hff : env.factoryFails p = false)
    (h0 : c.currentGeojson = none)
    (hL : w.nextLayerId = 0) (hG : w.nextGroupId = 0)
    (hml : w.mapLayers = []) (hgs : w.groups = []) :
    (ngOnChanges env w c { geojson := some ⟨pv, some p⟩ }).err = none ∧
    RefreshInv 0 p
      (ngOnChanges env w c { geojson := some ⟨pv, some p⟩ }).world
      (ngOnChanges env w c { geojson := some ⟨pv, some p⟩ }).comp := by
  obtain ⟨pre, w1, tail, w2, hbr, hzs, heq⟩ :=
    refresh_success env w c pv p hav hff
  obtain ⟨-, hpre, hw1⟩ := hbr.resolve_right (by
    rintro ⟨old, hco, -, -⟩
    rw [h0] at hco
    cases hco)
  subst hw1
  have hfields := zoomStep_fields env tail w2
    (loadWorld w1 (refreshedLayer w1 c p))
    { c with currentGeojson := some (refreshedLayer w1 c p) }
    pv c.zoomOnLayer hzs
  rw [heq]
  refine ⟨rfl, ?_, ?_, ?_, ?_, refreshedLayer w1 c p, rfl, rfl, ?_, ?_, [], ?_, ?_⟩
  · rw [hfields.1]
    exact hav
  · rw [hfields.2.2.2.2.1]
    show w1.nextLayerId + 1 = 0 + 1
    rw [hL]
  · rw [hfields.2.2.2.2.2]
    show w1.nextGroupId + 1 = 0 + 1
    rw [hG]
  · rw [hfields.2.2.2.1]
    show some w1.nextGroupId = some 0
    rw [hG]
  · show (refreshedLayer w1 c p).lid = 0
    show w1.nextLayerId = 0
    exact hL
  · rw [hfields.2.1, loadWorld_mapLayers, hml, hG]
    simp [List.range_succ]
  · rw [hfields.2.2.1,
      loadWorld_groups w1 _ (by rw [hgs]; intro e he; cases he), hgs, hG]
  · intro e he
    cases he

/-- Every further refresh with a non-throwing factory preserves the
invariant, advancing the refresh index and replacing the payload. -/
theorem refresh_step_inv (env : Env) (w : World) (c : GeojsonComponent)
    (pv : Option Nat) (j p q : Nat)
    (hinv : RefreshInv j p w c)
    (hff : env.factoryFails q = false) :
    (ngOnChanges env w c { geojson := some ⟨pv, some q⟩ }).err = none ∧
    RefreshInv (j + 1) q
      (ngOnChanges env w c { geojson := some ⟨pv, some q⟩ }).world
      (ngOnChanges env w c { geojson := some ⟨pv, some q⟩ }).comp := by
  obtain ⟨hav, hL, hG, hsvc, r, hcur, hpay, hlid, hml, gs, hgr, hgslt⟩ := hinv
  obtain ⟨pre, w1, tail, w2, hbr, hzs, heq⟩ :=
    refresh_success env w c pv q hav hff
  obtain ⟨old, hco, hpre, hw1⟩ := hbr.resolve_left (by
    rintro ⟨h0, -, -⟩
    rw [hcur] at h0
    cases h0)
  rw [hcur] at hco
  injection hco with hor
  subst hor
  subst hw1
  have hfields := zoomStep_fields env tail w2
    (loadWorld (w.mapRemoveLayer r)
      (refreshedLayer (w.mapRemoveLayer r) c q))
    { c with
      currentGeojson := some (refreshedLayer (w.mapRemoveLayer r) c q) }
    pv c.zoomOnLayer hzs
  have hw1ml : (w.mapRemoveLayer r).mapLayers =
      (List.range (j + 1)).map Layer.group := by
    show w.mapLayers.filter (fun l => l ≠ Layer.rendered r) = _
    rw [hml]
    exact filter_out_rendered (j + 1) r
  rw [heq]
  refine ⟨rfl, ?_, ?_, ?_, ?_,
    refreshedLayer (w.mapRemoveLayer r) c q, rfl, rfl, ?_, ?_,
    gs ++ [(j, [r])], ?_, ?_⟩
  · rw [hfields.1]
    exact hav
  · rw [hfields.2.2.2.2.1]
    show w.nextLayerId + 1 = (j + 1) + 1
    rw [hL]
  · rw [hfields.2.2.2.2.2]
    show w.nextGroupId + 1 = (j + 1) + 1
    rw [hG]
  · rw [hfields.2.2.2.1]
    show some w.nextGroupId = some (j + 1)
    rw [hG]
  · show (w.mapRemoveLayer r).nextLayerId = j + 1
    show w.nextLayerId = j + 1
    exact hL
  · rw [hfields.2.1, loadWorld_mapLayers, hw1ml]
    have hg1 : (w.mapRemoveLayer r).nextGroupId = j + 1 := hG
    rw [hg1]
    simp [List.range_succ, List.append_assoc]
  · rw [hfields.2.2.1,
      loadWorld_groups (w.mapRemoveLayer r) _ ?_]
    · show w.groups ++ _ = _
      rw [hgr]
      have hg1 : (w.mapRemoveLayer r).nextGroupId = j + 1 := hG
      rw [hg1]
    · intro e he
      have he' : e ∈ w.groups := he
      rw [hgr] at he'
      have hg1 : (w.mapRemoveLayer r).nextGroupId = j + 1 := hG
      rw [hg1]
      rcases List.mem_append.mp he' with h | h
      · exact Nat.ne_of_lt (Nat.lt_trans (hgslt e h) (Nat.lt_succ_self j))
      · have : e = (j, [r]) := by simpa using h
        rw [this]
        exact Nat.ne_of_lt (Nat.lt_succ_self j)
  · intro e he
    rcases List.mem_append.mp he with h | h
    · exact Nat.lt_trans (hgslt e h) (Nat.lt_succ_self j)
    · have : e = (j, [r]) := by simpa using h
      rw [this]
      exact Nat.lt_succ_self j

/-- Driving any further update sequence with a non-throwing factory keeps
every refresh exception-free and carries the invariant to the end of the
sequence. -/
theorem runUpdates_inv (env : Env) :
    ∀ (ps : List Nat) (j p : Nat) (w : World) (c : GeojsonComponent),
      RefreshInv j p w c →
      (∀ q ∈ ps, env.factoryFails q = false) →
      (runUpdates env w c (some p) ps).err = none ∧
      RefreshInv (j + ps.length) (ps.getLastD p)
        (runUpdates env w c (some p) ps).world
        (runUpdates env w c (some p) ps).comp := by
  intro ps
  induction ps with
  | nil =>
    intro j p w c hinv _
    exact ⟨rfl, hinv⟩
  | cons q ps ih =>
    intro j p w c hinv hq
    obtain ⟨herr, hinv'⟩ := refresh_step_inv env w c (some p) j p q hinv
      (hq q (List.mem_cons_self q ps))
    have herr' : (ngOnChanges env w c (mkChange (some p) q)).err = none := herr
    have hinv'' : RefreshInv (j + 1) q
        (ngOnChanges env w c (mkChange (some p) q)).world
        (ngOnChanges env w c (mkChange (some p) q)).comp := hinv'
    obtain ⟨ihret, ihinv⟩ := ih (j + 1) q _ _ hinv''
      (fun x hx => hq x (List.mem_cons_of_mem q hx))
    have hrun : runUpdates env w c (some p) (q :: ps) =
        { events := (ngOnChanges env w c (mkChange (some p) q)).events ++
            (runUpdates env (ngOnChanges env w c (mkChange (some p) q)).world
              (ngOnChanges env w c (mkChange (some p) q)).comp
              (some q) ps).events
          world := (runUpdates env
            (ngOnChanges env w c (mkChange (some p) q)).world
            (ngOnChanges env w c (mkChange (some p) q)).comp
            (some q) ps).world
          comp := (runUpdates env
            (ngOnChanges env w c (mkChange (some p) q)).world
            (ngOnChanges env w c (mkChange (some p) q)).comp
            (some q) ps).comp
          err := (runUpdates env
            (ngOnChanges env w c (mkChange (some p) q)).world
            (ngOnChanges env w c (mkChange (some p) q)).comp
            (some q) ps).err } := by
      simp only [runUpdates]
      rw [herr']
    rw [hrun]
    have hlen : j + (q :: ps).length = (j + 1) + ps.length := by
      simp only [List.length_cons]
      omega
    have hlast : (q :: ps).getLastD p = ps.getLastD q := by
      cases ps <;> rfl
    rw [hlen, hlast]
    exact ⟨ihret, ihinv⟩

/-- The number of attached groups and rendered layers read off the
invariant's map-layer shape. -/
theorem count_shape (k : Nat) (r : RenderedLayer) (w : World)
    (h : w.mapLayers = (List.range k).map Layer.group ++ [Layer.rendered r]) :
    countGroups w = k ∧ countRendered w = 1 := by
  unfold countGroups countRendered
  rw [h, List.filter_append, List.filter_append]
  constructor
  · have h1 : ((List.range k).map Layer.group).filter
        (fun l => match l with | Layer.group _ => true | _ => false) =
        (List.range k).map Layer.group := by
      apply List.filter_eq_self.mpr
      intro a ha
      simp only [List.mem_map] at ha
      obtain ⟨i, _, rfl⟩ := ha
      rfl
    rw [h1]
    simp
  · have h1 : ((List.range k).map Layer.group).filter
        (fun l => match l with | Layer.rendered _ => true | _ => false) =
        [] := by
      apply List.filter_eq_nil_iff.mpr
      intro a ha
      simp only [List.mem_map] at ha
      obtain ⟨i, _, rfl⟩ := ha
      simp
    rw [h1]
    simp

/-- C1, counterexample: run two payload updates from the pristine bound
state; the claim says the map then contains exactly one `LayerGroup`, but
it contains two — the group created by the first refresh is never
detached. -/
theorem c1_two_groups_after_two_updates :
    countGroups (runUpdates benignEnv initWorld
      (ngOnInit initWorld (initComp true false 9)) none [1, 2]).world = 2 ∧
    ¬ countGroups (runUpdates benignEnv initWorld
      (ngOnInit initWorld (initComp true false 9)) none [1, 2]).world = 1 := by
  decide

/-- C1, amended: for every nonempty sequence of payload updates (on which
the factory does not throw) driven from the pristine bound state, after
the whole sequence the Map Surface contains one `LayerGroup` per refresh
performed — stale groups are never detached — and exactly one
RenderedLayer, the one built from the most recent payload; the service's
current group (the one created by the last refresh, with the highest
group id) contains exactly that layer, and it is the manager's current
layer.  A fresh group is indeed created per refresh (group ids equal the
refresh index). -/
theorem c1_amended_one_layer_many_groups (env : Env) (z a : Bool)
    (cb : Nat) (p : Nat) (ps : List Nat)
    (hff : ∀ q ∈ p :: ps, env.factoryFails q = false) :
    (runUpdates env initWorld (ngOnInit initWorld (initComp z a cb))
      none (p :: ps)).err = none ∧
    countGroups (runUpdates env initWorld
      (ngOnInit initWorld (initComp z a cb)) none (p :: ps)).world =
      ps.length + 1 ∧
    countRendered (runUpdates env initWorld
      (ngOnInit initWorld (initComp z a cb)) none (p :: ps)).world = 1 ∧
    ∃ r gs,
      (runUpdates env initWorld (ngOnInit initWorld (initComp z a cb))
        none (p :: ps)).comp.currentGeojson = some r ∧
      r.payload = ps.getLastD p ∧
      Layer.rendered r ∈ (runUpdates env initWorld
        (ngOnInit initWorld (initComp z a cb)) none (p :: ps)).world.mapLayers ∧
      (runUpdates env initWorld (ngOnInit initWorld (initComp z a cb))
        none (p :: ps)).world.svcLayerGroup = some ps.length ∧
      (runUpdates env initWorld (ngOnInit initWorld (initComp z a cb))
        none (p :: ps)).world.groups = gs ++ [(ps.length, [r])] := by
  obtain ⟨herr, hinv⟩ := refresh_first_inv env initWorld
    (ngOnInit initWorld (initComp z a cb)) none p rfl
    (hff p (List.mem_cons_self p ps)) rfl rfl rfl rfl rfl
  have herr' : (ngOnChanges env initWorld
      (ngOnInit initWorld (initComp z a cb)) (mkChange none p)).err =
      none := herr
  have hinv' : RefreshInv 0 p
      (ngOnChanges env initWorld (ngOnInit initWorld (initComp z a cb))
        (mkChange none p)).world
      (ngOnChanges env initWorld (ngOnInit initWorld (initComp z a cb))
        (mkChange none p)).comp := hinv
  obtain ⟨rerr, rinv⟩ := runUpdates_inv env ps 0 p _ _ hinv'
    (fun x hx => hff x (List.mem_cons_of_mem p hx))
  have hrun : runUpdates env initWorld
      (ngOnInit initWorld (initComp z a cb)) none (p :: ps) =
      { events := (ngOnChanges env initWorld
          (ngOnInit initWorld (initComp z a cb)) (mkChange none p)).events ++
          (runUpdates env
            (ngOnChanges env initWorld
              (ngOnInit initWorld (initComp z a cb)) (mkChange none p)).world
            (ngOnChanges env initWorld
              (ngOnInit initWorld (initComp z a cb)) (mkChange none p)).comp
            (some p) ps).events
        world := (runUpdates env
          (ngOnChanges env initWorld
            (ngOnInit initWorld (initComp z a cb)) (mkChange none p)).world
          (ngOnChanges env initWorld
            (ngOnInit initWorld (initComp z a cb)) (mkChange none p)).comp
          (some p) ps).world
        comp := (runUpdates env
          (ngOnChanges env initWorld
            (ngOnInit initWorld (initComp z a cb)) (mkChange none p)).world
          (ngOnChanges env initWorld
            (ngOnInit initWorld (initComp z a cb)) (mkChange none p)).comp
          (some p) ps).comp
        err := (runUpdates env
          (ngOnChanges env initWorld
            (ngOnInit initWorld (initComp z a cb)) (mkChange none p)).world
          (ngOnChanges env initWorld
            (ngOnInit initWorld (initComp z a cb)) (mkChange none p)).comp
          (some p) ps).err } := by
    simp only [runUpdates]
    rw [herr']
  rw [hrun]
  obtain ⟨hmav, hnl, hng, hsvc, r, hcur, hpay, hlid, hml, gs, hgr, hgb⟩ := rinv
  obtain ⟨hcg, hcr⟩ := count_shape (0 + ps.length + 1) r _ hml
  refine ⟨rerr, ?_, hcr, r, gs, hcur, hpay, ?_, ?_, ?_⟩
  · rw [hcg]
    omega
  · rw [hml]
    simp
  · rw [hsvc]
    simp
  · rw [hgr]
    simp

/-- Witness for C1's amended theorem at a concrete input: the two-update
run completes without exception. -/
theorem c1_amended_one_layer_many_groups_witness :
    (runUpdates benignEnv initWorld
      (ngOnInit initWorld (initComp true false 9)) none [1, 2]).err = none :=
  (c1_amended_one_layer_many_groups benignEnv true false 9 1 [2]
    (fun _ _ => rfl)).1
